import Mathlib

/-!
Verification development for the dbscst frontend: the client-side session
lifecycle and schema synchronization engine.

The definitions below are a shallow embedding of the TypeScript source:

* `src/dbscst-frontend/src/shared/useWebsocket.tsx` — push-feed ingestion;
* `src/dbscst-frontend/src/ui/projectPage.tsx` — edit staging and commit
  (`handleEdit` / `handleSave` / `handleUpdate`);
* `src/dbscst-frontend/src/ui/home.tsx` — session validity check and the
  scheduled-expiry teardown effects;
* `src/dbscst-frontend/src/shared/introduction.tsx` — login (session
  establishment) and the post-signup verification poller;
* `src/unnamed/part_000` — the conversation engine (`handleSubmit` of the
  generation page).

Machine state that the source keeps in React `useState` hooks or in
`localStorage` is represented by explicit state records; each event handler
becomes a pure state-transition function.  JavaScript strings are Lean
`String`s; `String.trim` / `String.split` are re-implemented over the
character list so that concrete runs reduce inside the kernel.
-/

namespace Dbscst

/-- Whitespace as trimmed by the JavaScript `String.prototype.trim` calls in
the source (the source only ever trims ordinary spaces/tabs/newlines). -/
def isJsSpace (c : Char) : Bool :=
  c = ' ' || c = '\t' || c = '\n' || c = '\r'

/-- Trim `isJsSpace` characters from both ends of a character list. -/
def trimChars (l : List Char) : List Char :=
  ((l.dropWhile isJsSpace).reverse.dropWhile isJsSpace).reverse

/-- Embedding of JavaScript `s.trim()`. -/
def jsTrim (s : String) : String := String.mk (trimChars s.data)

/-- Split a character list at every occurrence of `sep`, keeping empty
segments, exactly like JavaScript `String.prototype.split` with a
single-character separator. -/
def splitOnChar (sep : Char) : List Char → List (List Char)
  | [] => [[]]
  | c :: rest =>
    let r := splitOnChar sep rest
    if c = sep then [] :: r
    else
      match r with
      | h :: t => (c :: h) :: t
      | [] => [[c]]

/-- Embedding of JavaScript `s.split(sep)` for a one-character separator. -/
def jsSplit (sep : Char) (s : String) : List String :=
  (splitOnChar sep s.data).map String.mk

/-- JavaScript truthiness of a possibly-absent string (`null`/`undefined`
and `""` are falsy, every other string is truthy). -/
def truthy : Option String → Bool
  | none => false
  | some s => s ≠ ""

/-! ## Data model (shared `Field` shape)

`useWebsocket.tsx`, `projectPage.tsx` and `constants.tsx` all declare the
same field record `{ name, type, required, description? }`. -/

structure Field where
  name : String
  type : String
  required : Bool
  description : Option String
deriving DecidableEq, Repr

/-! ## Push-feed ingestion (`useWebsocket.tsx`)

`useWebSocket` keeps `tables : Table[]` state; on every message it parses
the payload as `Schema[]` and, when `data && data.length > 0`, replaces the
whole list with `data.flatMap(s => s.schema_definition.tables || [])`. -/

/-- `Table` of `useWebsocket.tsx`: `{ name, fields, description? }`. -/
structure WsTable where
  name : String
  fields : List Field
  description : Option String
deriving DecidableEq, Repr

/-- `schema_definition` of `useWebsocket.tsx`; the `tables` property may be
absent in a payload, which the source defends against with `|| []`. -/
structure SchemaDefinition where
  tables : Option (List WsTable)
deriving DecidableEq, Repr

/-- `Schema` of `useWebsocket.tsx`. -/
structure WsSchema where
  id : String
  name : String
  schema_type : String
  schema_definition : SchemaDefinition
  created_at : String
deriving DecidableEq, Repr

/-- The `socket.onmessage` handler of `useWebSocket` (lines 44–55): given
the current `tables` state and the parsed payload, produce the next
`tables` state.  The guard `if (data && data.length > 0)` means the state
is only replaced for a non-empty payload list. -/
def wsOnMessage (tables : List WsTable) (data : List WsSchema) : List WsTable :=
  if data.length > 0 then
    (data.map (fun s => s.schema_definition.tables.getD [])).flatten
  else tables

/-! ## Edit staging and commit (`projectPage.tsx`) -/

/-- `Schema` of `projectPage.tsx`:
`{ id, name, description?, schema_type, fields, created_at }`. -/
structure PSchema where
  id : String
  name : String
  description : Option String
  schema_type : String
  fields : List Field
  created_at : String
deriving DecidableEq, Repr

/-- The `editing` state of `ProjectPage`:
`{ schemaId, field, value, oldValue }`. -/
structure Editing where
  schemaId : String
  field : String
  value : String
  oldValue : String
deriving DecidableEq, Repr

/-- The mutable state of `ProjectPage` that the edit/commit handlers touch:
`updatedSchemas` (the working copy of the project's schema list),
`editing`, and `editedSchemas` (a `Set<string>` of dirty schema ids,
modelled as a duplicate-free list in insertion order). -/
structure ProjectPageState where
  updatedSchemas : List PSchema
  editing : Option Editing
  editedSchemas : List String
deriving DecidableEq, Repr

/-- JavaScript `new Set(prev).add(x)`: insert `x` if not already present. -/
def setInsert (x : String) (s : List String) : List String :=
  if x ∈ s then s else s ++ [x]

/-- `handleEdit(schemaId, field, value)` (lines 79–82): start an edit
session, remembering the value at the moment editing started in
`oldValue`. -/
def handleEdit (st : ProjectPageState) (schemaId field value : String) :
    ProjectPageState :=
  { st with editing := some ⟨schemaId, field, value, value⟩ }

/-- The computed-key update `{...schema, [field]: newValue}` of
`handleSave` for a schema-level attribute; the source only reaches this
with `field` one of `name` / `description` / `schema_type`. -/
def setSchemaAttr (attr newValue : String) (s : PSchema) : PSchema :=
  if attr = "name" then { s with name := newValue }
  else if attr = "description" then { s with description := some newValue }
  else if attr = "schema_type" then { s with schema_type := newValue }
  else s

/-- The computed-key update `{...f, [field.split("-")[0]]: newValue}` of
`handleSave` for a field-level attribute; the UI only produces the prefixes
`name` / `type` / `description` (any other key would add a property the
rendering never reads, which we model as no change). -/
def setFieldAttr (attr newValue : String) (f : Field) : Field :=
  if attr = "name" then { f with name := newValue }
  else if attr = "type" then { f with type := newValue }
  else if attr = "description" then { f with description := some newValue }
  else f

/-- One schema's update inside the `updatedSchemas.map` of `handleSave`
(lines 95–116).  `field.split("-")[1]` is the target field name (absent
when `field` contains no dash, in which case `f.name === undefined` never
holds) and `field.split("-")[0]` the attribute to set. -/
def saveIntoSchema (schemaId field newValue : String) (schema : PSchema) :
    PSchema :=
  if schema.id = schemaId then
    if field = "name" ∨ field = "description" ∨ field = "schema_type" then
      setSchemaAttr field newValue schema
    else
      { schema with
        fields := schema.fields.map (fun f =>
          if some f.name = (jsSplit '-' field).get? 1 then
            setFieldAttr ((jsSplit '-' field).headD "") newValue f
          else f) }
  else schema

/-- `handleSave(schemaId, field, newValue)` (lines 84–122).  A blank
(`!newValue.trim()`) value or a value equal to the edit session's
`oldValue` discards the save; otherwise the working copy is updated and
the schema id is added to `editedSchemas`. -/
def handleSave (st : ProjectPageState) (schemaId field newValue : String) :
    ProjectPageState :=
  if jsTrim newValue = "" then { st with editing := none }
  else if (match st.editing with
           | some e => newValue == e.oldValue
           | none => false : Bool) then { st with editing := none }
  else
    { updatedSchemas := st.updatedSchemas.map (saveIntoSchema schemaId field newValue)
      editing := none
      editedSchemas := setInsert schemaId st.editedSchemas }

/-- Observable outcome of one `handleUpdate` call: the resulting component
state, the request body (`{ schemas: updatedSchemas }`) sent to the
collaborator, and whether the failure `alert` was shown. -/
structure UpdateOutcome where
  state : ProjectPageState
  requestSchemas : List PSchema
  alerted : Bool
deriving DecidableEq, Repr

/-- `handleUpdate(schemaId)` (lines 124–153), with the network outcome
(`response.ok`) passed in.  The PUT body always carries the entire current
`updatedSchemas` list.  On success, `window.location.reload()` (line 143)
remounts the page before the queued `setEditedSchemas` delete matters: the
component state is re-initialized — `editedSchemas` a fresh empty `Set`,
no edit session — and the initial effect refetches the project, whose
schemas the collaborator now persists as exactly the list just sent, so
the remounted working list is the committed list.  On failure the `catch`
branch only alerts, leaving `updatedSchemas` and `editedSchemas`
untouched. -/
def handleUpdate (st : ProjectPageState) (schemaId : String) (ok : Bool) :
    UpdateOutcome :=
  { requestSchemas := st.updatedSchemas
    state :=
      if ok then
        { updatedSchemas := st.updatedSchemas, editing := none, editedSchemas := [] }
      else st
    alerted := !ok }

/-! ## Session persistence (`home.tsx`, `introduction.tsx`)

The four persisted keys are `access_token`, `isLoggedIn`, `token_expiry`
and `username`.  The source stores the expiry as the decimal string of a
millisecond timestamp and reads it back with `parseInt`; since that
round-trip is exact for every value the app writes, the expiry is modelled
directly as the number. -/

structure LocalStore where
  access_token : Option String
  isLoggedIn : Option String
  token_expiry : Option Nat
  username : Option String
deriving DecidableEq, Repr

/-- A store with none of the four keys present. -/
def emptyStore : LocalStore := ⟨none, none, none, none⟩

/-- The login success path of `handleLoginSubmit` (`introduction.tsx`
lines 204–207): store the token, set the logged-in flag, and record
`token_expiry = Date.now() + 30 * 60 * 1000`. -/
def establishSession (st : LocalStore) (access_token : String) (now : Nat) :
    LocalStore :=
  { st with
    access_token := some access_token
    isLoggedIn := some "true"
    token_expiry := some (now + 30 * 60 * 1000) }

/-- The validity condition of the initial session-check effect
(`home.tsx` lines 59–64): a truthy token, the logged-in flag equal to
`"true"`, a truthy expiry, and `Date.now() < parseInt(token_expiry)`. -/
def isValid (st : LocalStore) (now : Nat) : Bool :=
  truthy st.access_token && (st.isLoggedIn == some "true") &&
    (match st.token_expiry with
     | some e => decide (now < e)
     | none => false)

/-- Teardown in the `else` branch of the initial session-check effect
(`home.tsx` lines 68–71): all four keys are removed. -/
def clearAllKeys (_st : LocalStore) : LocalStore := emptyStore

/-- Teardown used by the scheduled-expiry effect (`home.tsx` lines 83–85
and 91–93): only `access_token`, `isLoggedIn` and `token_expiry` are
removed; `username` is left in place. -/
def clearTokenKeys (st : LocalStore) : LocalStore :=
  { st with access_token := none, isLoggedIn := none, token_expiry := none }

/-- Result of the initial session-check effect: the store afterwards,
whether the intro is skipped (`introComplete`), and whether the project
list was fetched. -/
structure SessionCheck where
  store : LocalStore
  introComplete : Bool
  fetchedProjects : Bool
deriving DecidableEq, Repr

/-- The initial session-check effect of `HomePage` (`home.tsx` lines
52–73): the anonymous sentinel bypasses the check; a valid session skips
the intro and fetches projects; anything else tears the whole session
down (all four keys). -/
def sessionCheckEffect (st : LocalStore) (now : Nat) : SessionCheck :=
  if st.username == some "anonymous" then ⟨st, true, false⟩
  else if isValid st now then ⟨st, true, true⟩
  else ⟨clearAllKeys st, false, false⟩

/-- Run the session-check effect `n + 1` times in sequence (each check
reads the store left behind by the previous one). -/
def repeatedCheck : Nat → LocalStore → Nat → SessionCheck
  | 0, st, now => sessionCheckEffect st now
  | n + 1, st, now => repeatedCheck n (sessionCheckEffect st now).store now

/-- What the scheduled-expiry effect decided to do. -/
inductive ExpiryAction
  | scheduledAt (fireTime : Nat)
  | clearedNow
  | noTimer
deriving DecidableEq, Repr

/-- The scheduled-expiry effect of `HomePage` (`home.tsx` lines 75–96):
with a truthy `token_expiry`, either schedule a timeout for the remaining
time or — when the expiry has already passed (resume after expiry) —
immediately remove the three token keys.  `username` is not touched on
either path. -/
def expiryEffect (st : LocalStore) (now : Nat) : LocalStore × ExpiryAction :=
  match st.token_expiry with
  | some e =>
    if now < e then (st, ExpiryAction.scheduledAt e)
    else (clearTokenKeys st, ExpiryAction.clearedNow)
  | none => (st, ExpiryAction.noTimer)

/-- The timeout callback scheduled by the expiry effect (`home.tsx` lines
82–87): remove the three token keys (not `username`) and drop back to the
logged-out view. -/
def expiryTimerFire (st : LocalStore) : LocalStore := clearTokenKeys st

/-! ## Verification poller (`introduction.tsx` lines 131–162)

After a successful signup call, `handleSignUpSubmit` starts
`setInterval(pollVerificationStatus, 5000)`.  Every tick attempts a login
with the registered credentials; a failed attempt is swallowed by the
`catch`, a successful one calls `clearInterval`, shows the checkmark and
(after 1.5 s) fires `onComplete` and reloads.  The tick never writes any
of the `localStorage` session keys. -/

structure PollerState where
  intervalActive : Bool
  attempts : Nat
  verifiedCount : Nat
  completions : Nat
deriving DecidableEq, Repr

/-- Poller state right after `setInterval` is installed. -/
def startPolling : PollerState :=
  { intervalActive := true, attempts := 0, verifiedCount := 0, completions := 0 }

/-- One firing of the 5-second interval, with the login outcome
(`loginResponse.ok`) passed in.  A cleared interval no longer fires, so a
state with `intervalActive = false` is returned unchanged.  The
accompanying `LocalStore` is returned as the source leaves it: the
success branch (lines 147–156) performs no `localStorage.setItem`. -/
def pollTick (p : PollerState) (store : LocalStore) (loginOk : Bool) :
    PollerState × LocalStore :=
  if p.intervalActive then
    if loginOk then
      ({ intervalActive := false
         attempts := p.attempts + 1
         verifiedCount := p.verifiedCount + 1
         completions := p.completions + 1 }, store)
    else ({ p with attempts := p.attempts + 1 }, store)
  else (p, store)

/-- Cleanup functions the `Introduction` component registers for unmount.
The component contains no `useEffect` at all, so this list is empty: in
particular nothing clears `pollingInterval`. -/
def introductionEffectCleanups : List (PollerState → PollerState) := []

/-- Unmounting `Introduction` runs its registered cleanups (there are
none), so the interval handle survives. -/
def unmountIntroduction (p : PollerState) : PollerState :=
  introductionEffectCleanups.foldl (fun s c => c s) p

/-- Run `n` failed poll ticks in sequence. -/
def pollFailures : Nat → PollerState × LocalStore → PollerState × LocalStore
  | 0, ps => ps
  | n + 1, ps => pollFailures n (pollTick ps.1 ps.2 false)

/-! ## Conversation engine (`src/unnamed/part_000`, `handleSubmit`)

State: `schema : ProjectSchema | null` and
`conversationId : string | null`.  Every submit sends
`{ project_description: userInput, conversation_id: conversationId,
user_feedback: schema ? userInput : null }`; on success the response
replaces `schema` and, when `data.conversation_id` is truthy, becomes the
new `conversationId`; the `catch` branch sets `schema` to `null` and
leaves `conversationId` alone. -/

structure GenTable where
  name : String
  description : String
  fields : List Field
deriving DecidableEq, Repr

/-- `ProjectSchema` of `constants.tsx`. -/
structure ProjectSchema where
  project_title : String
  follow_up_question : String
  tables : List GenTable
  conversation_id : Option String
deriving DecidableEq, Repr

/-- The conversation-relevant component state of the generation page. -/
structure ConvState where
  schema : Option ProjectSchema
  conversationId : Option String
deriving DecidableEq, Repr

/-- State before the first turn: `useState(null)` for both hooks. -/
def initialConvState : ConvState := ⟨none, none⟩

/-- The body of the generation request (part_000 lines 49–54), minus the
constant `api_key`. -/
structure GenRequest where
  project_description : String
  conversation_id : Option String
  user_feedback : Option String
deriving DecidableEq, Repr

/-- Build the request `handleSubmit` sends from the current state and the
latest user text: `user_feedback` is the text when a schema object is
currently held (`schema ? userInput : null`), otherwise absent. -/
def buildGenRequest (s : ConvState) (userInput : String) : GenRequest :=
  { project_description := userInput
    conversation_id := s.conversationId
    user_feedback := if s.schema.isSome then some userInput else none }

/-- Apply the call's outcome (part_000 lines 59–81): a parsed success
response replaces `schema` and conditionally (`if (data.conversation_id)`)
updates `conversationId`; any failure lands in `catch`, which sets
`schema` to `null` and does not touch `conversationId`. -/
def applyGenResult (s : ConvState) (result : Option ProjectSchema) : ConvState :=
  match result with
  | some data =>
    { schema := some data
      conversationId :=
        if truthy data.conversation_id then data.conversation_id
        else s.conversationId }
  | none => { s with schema := none }

/-- One `handleSubmit` turn (part_000 lines 25–86): blank input is
rejected before any request is built; otherwise the request of
`buildGenRequest` is sent and the outcome applied. -/
def convSubmit (s : ConvState) (userInput : String)
    (result : Option ProjectSchema) : ConvState × Option GenRequest :=
  if jsTrim userInput = "" then (s, none)
  else (applyGenResult s result, some (buildGenRequest s userInput))

/-! ## Helper lemmas -/

/-- Mapping a function that fixes every element of a list is the
identity. -/
theorem map_eq_of_forall_eq {α : Type} (l : List α) (f : α → α)
    (h : ∀ a ∈ l, f a = a) : l.map f = l := by
  induction l with
  | nil => rfl
  | cons a t ih =>
    simp only [List.map_cons, h a (List.mem_cons_self a t)]
    rw [ih (fun x hx => h x (List.mem_cons_of_mem a hx))]

/-- Iterating the session check on a fully cleared store keeps the store
cleared and the user on the logged-out path. -/
theorem repeatedCheck_empty (k now : Nat) :
    repeatedCheck k emptyStore now = ⟨emptyStore, false, false⟩ := by
  induction k with
  | zero =>
    simp [repeatedCheck, sessionCheckEffect, isValid, truthy, clearAllKeys,
      emptyStore]
  | succ m ih =>
    have hstep : (sessionCheckEffect emptyStore now).store = emptyStore := by
      simp [sessionCheckEffect, isValid, truthy, clearAllKeys, emptyStore]
    show repeatedCheck m (sessionCheckEffect emptyStore now).store now = _
    rw [hstep, ih]

/-- Failed poll ticks on an active interval only increment the attempt
counter and never touch the store. -/
theorem pollFailures_run (n : Nat) : ∀ (k : Nat) (store : LocalStore),
    pollFailures n (⟨true, k, 0, 0⟩, store) = (⟨true, k + n, 0, 0⟩, store) := by
  induction n with
  | zero => intro k store; simp [pollFailures]
  | succ m ih =>
    intro k store
    have h1 : pollTick ⟨true, k, 0, 0⟩ store false = (⟨true, k + 1, 0, 0⟩, store) := by
      simp [pollTick]
    show pollFailures m (pollTick ⟨true, k, 0, 0⟩ store false) = _
    rw [h1, ih (k + 1) store, Nat.add_assoc, Nat.add_comm 1 m]

/-! ## Claims -/

/-- Working state used for the C10 witness. -/
def c10St : ProjectPageState :=
  ⟨[⟨"s1", "Users", none, "relational", [⟨"id", "int", true, none⟩], "t0"⟩],
    none, []⟩

/-- C10: a staged edit whose saved new value is empty or whitespace-only is
discarded as a no-op — the working schema list is unchanged, nothing is
added to the dirty set, and the edit session is simply closed, so a save
can never blank out a schema or field attribute. -/
theorem blankSave_noop (st : ProjectPageState) (schemaId field v : String)
    (h : jsTrim v = "") :
    (handleSave st schemaId field v).updatedSchemas = st.updatedSchemas ∧
    (handleSave st schemaId field v).editedSchemas = st.editedSchemas ∧
    (handleSave st schemaId field v).editing = none := by
  simp [handleSave, h]

/-- C10 witness: a whitespace-only save on a concrete state changes
nothing. -/
theorem blankSave_noop_witness :
    jsTrim "   " = "" ∧
    ((handleSave c10St "s1" "name" "   ").updatedSchemas = c10St.updatedSchemas ∧
     (handleSave c10St "s1" "name" "   ").editedSchemas = c10St.editedSchemas ∧
     (handleSave c10St "s1" "name" "   ").editing = none) :=
  ⟨by decide, blankSave_noop c10St "s1" "name" "   " (by decide)⟩

/-- Concrete table and payload used for the C8 counterexample/witness. -/
def c8Table : WsTable := ⟨"Orders", [⟨"id", "int", true, none⟩], none⟩

/-- Concrete push payload used for the C8 witness. -/
def c8Schema : WsSchema :=
  ⟨"id1", "S", "relational", ⟨some [⟨"Users", [], none⟩]⟩, "t0"⟩

/-- C8 counterexample: an empty payload list does not replace the working
table list (the flattening of an empty payload is `[]`, but the previous
list is kept), so replacement does not happen for *every* push message. -/
theorem wsReplace_cex :
    wsOnMessage [c8Table] [] = [c8Table] ∧
    ([] : List WsSchema).map (fun s => s.schema_definition.tables.getD []) = [] ∧
    wsOnMessage [c8Table] [] ≠ [] := by decide

/-- C8 (amended): for every *non-empty* push payload the working table
list is replaced by the payload's tables flattened across all schema
entries in payload order, regardless of the previous list; an empty
payload leaves the working list unchanged. -/
theorem wsReplace_nonEmpty (tables : List WsTable) (data : List WsSchema)
    (h : data ≠ []) :
    wsOnMessage tables data =
      (data.map (fun s => s.schema_definition.tables.getD [])).flatten ∧
    wsOnMessage tables [] = tables := by
  refine ⟨?_, by simp [wsOnMessage]⟩
  have hpos : data.length > 0 := List.length_pos.mpr h
  simp [wsOnMessage, hpos]

/-- C8 witness: a concrete non-empty payload replaces a concrete previous
list with its flattening. -/
theorem wsReplace_nonEmpty_witness :
    ([c8Schema] : List WsSchema) ≠ [] ∧
    (wsOnMessage [c8Table] [c8Schema] =
       (([c8Schema] : List WsSchema).map
         (fun s => s.schema_definition.tables.getD [])).flatten ∧
     wsOnMessage [c8Table] [] = [c8Table]) :=
  ⟨by decide, wsReplace_nonEmpty [c8Table] [c8Schema] (by decide)⟩

/-- Working table list holding a pending, uncommitted edit: the user has
edited the type of field `F` of table `S` to `uuid`. -/
def c1PendingTables : List WsTable := [⟨"S", [⟨"F", "uuid", true, none⟩], none⟩]

/-- Push payload for an unrelated schema `T`. -/
def c1PushSchema : WsSchema :=
  ⟨"id2", "T", "relational", ⟨some [⟨"T", [⟨"G", "int", true, none⟩], none⟩]⟩, "t0"⟩

/-- C1: the ingestion handler performs no re-application of pending edits —
after a push for an unrelated schema, the working list is exactly the
pushed snapshot; table `S` (with the user's pending value `uuid`) is
gone from the display entirely, rather than being preserved until commit
or discard. -/
theorem reconciliation_dropsPendingEdit :
    wsOnMessage c1PendingTables [c1PushSchema] =
      [⟨"T", [⟨"G", "int", true, none⟩], none⟩] ∧
    (∀ t ∈ wsOnMessage c1PendingTables [c1PushSchema], t.name ≠ "S") := by
  decide

/-- C2: `Introduction` registers no cleanup (it has no `useEffect`), so
unmounting leaves the polling interval active: the next tick still
performs a login attempt, and a succeeding tick after unmount still fires
the completion signal. -/
theorem pollingInterval_survivesUnmount :
    (unmountIntroduction startPolling).intervalActive = true ∧
    (pollTick (unmountIntroduction startPolling) emptyStore false).1.attempts = 1 ∧
    (pollTick (unmountIntroduction startPolling) emptyStore true).1.completions = 1 := by
  decide

/-- C3: after `n` failed poll attempts and one success, exactly one
VERIFIED transition and one completion signal occur and the interval is
stopped (further ticks are no-ops) — but the persisted store is returned
exactly as it was: the success branch performs no `localStorage` write,
so no Session is established from the login response. -/
theorem pollerSuccess_noSessionEstablished (n : Nat) (store : LocalStore) :
    pollTick (pollFailures n (startPolling, store)).1
        (pollFailures n (startPolling, store)).2 true =
      (⟨false, n + 1, 1, 1⟩, store) ∧
    (∀ (b : Bool) (st2 : LocalStore),
      pollTick ⟨false, n + 1, 1, 1⟩ st2 b = (⟨false, n + 1, 1, 1⟩, st2)) := by
  constructor
  · have hstart : startPolling = (⟨true, 0, 0, 0⟩ : PollerState) := rfl
    rw [hstart, pollFailures_run n 0 store]
    simp [pollTick]
  · intro b st2
    simp [pollTick]

/-- Persisted store of a logged-in user who also carries the identity
marker key. -/
def c4Store : LocalStore := ⟨some "tok", some "true", some 1000, some "alice"⟩

/-- C4: the scheduled-expiry teardown paths clear only a proper subset of
the four persisted items.  On resume after expiry, and when the scheduled
timer fires, `access_token`, `isLoggedIn` and `token_expiry` are removed
but `username` survives; only the initial-check teardown clears all
four. -/
theorem expiryTeardown_leavesUsername :
    (expiryEffect c4Store 2000).1 = ⟨none, none, none, some "alice"⟩ ∧
    (expiryEffect c4Store 2000).2 = ExpiryAction.clearedNow ∧
    expiryTimerFire c4Store = ⟨none, none, none, some "alice"⟩ ∧
    (sessionCheckEffect c4Store 2000).store = emptyStore := by
  decide

/-- Schema used for the C6 counterexample. -/
def c6Schema : PSchema := ⟨"s1", "A", none, "relational", [], "t0"⟩

/-- Initial project-page state for the C6 counterexample. -/
def c6St0 : ProjectPageState := ⟨[c6Schema], none, []⟩

/-- State after editing the name of `s1` from `A` to `B` and saving. -/
def c6St1 : ProjectPageState :=
  handleSave (handleEdit c6St0 "s1" "name" "A") "s1" "name" "B"

/-- State after then editing the name back from `B` to `A` and saving. -/
def c6St2 : ProjectPageState :=
  handleSave (handleEdit c6St1 "s1" "name" "B") "s1" "name" "A"

/-- C6 counterexample: editing `s1.name` to `B` and back to `A` before
committing restores the working copy, yet `s1` is still in the dirty set —
it is not removed even though no other edits remain. -/
theorem editBack_cex :
    c6St2.updatedSchemas = c6St0.updatedSchemas ∧
    c6St2.editedSchemas = ["s1"] ∧ c6St2.editedSchemas ≠ [] := by decide

/-- C6 (amended): editing a field to `V` and back to its original value
before committing restores the working copy (no net pending change), but
the schema *remains* in the dirty set — only a successful commit removes
it.  The no-op discard applies only within one edit session: a save whose
value equals the value when that session started leaves both the working
copy and the dirty set unchanged. -/
theorem editBack_remainsDirty (l : List PSchema) (id orig v : String)
    (st : ProjectPageState) (sid f w : String)
    (horig : ∀ s ∈ l, s.id = id → s.name = orig)
    (hv : jsTrim v ≠ "") (ho : jsTrim orig ≠ "") (hne : v ≠ orig) :
    ((handleSave (handleEdit (handleSave (handleEdit ⟨l, none, []⟩ id "name" orig)
        id "name" v) id "name" v) id "name" orig).updatedSchemas = l ∧
     (handleSave (handleEdit (handleSave (handleEdit ⟨l, none, []⟩ id "name" orig)
        id "name" v) id "name" v) id "name" orig).editedSchemas = [id]) ∧
    ((handleSave (handleEdit st sid f w) sid f w).updatedSchemas = st.updatedSchemas ∧
     (handleSave (handleEdit st sid f w) sid f w).editedSchemas = st.editedSchemas) := by
  have hbne : (v == orig) = false := by
    simp only [beq_eq_false_iff_ne, ne_eq]; exact hne
  have hbne2 : (orig == v) = false := by
    simp only [beq_eq_false_iff_ne, ne_eq]; exact fun hx => hne hx.symm
  constructor
  · have h1 : handleSave (handleEdit ⟨l, none, []⟩ id "name" orig) id "name" v =
        ⟨l.map (saveIntoSchema id "name" v), none, [id]⟩ := by
      simp [handleEdit, handleSave, hv, hbne, setInsert]
    rw [h1]
    have h2 : handleSave (handleEdit ⟨l.map (saveIntoSchema id "name" v), none, [id]⟩
        id "name" v) id "name" orig =
        ⟨(l.map (saveIntoSchema id "name" v)).map (saveIntoSchema id "name" orig),
          none, [id]⟩ := by
      simp [handleEdit, handleSave, ho, hbne2, setInsert]
    rw [h2]
    refine ⟨?_, rfl⟩
    rw [List.map_map]
    apply map_eq_of_forall_eq
    intro s hs
    by_cases hid : s.id = id
    · have hname := horig s hs hid
      cases s with
      | mk sid2 sname sdesc stype sfields screated =>
        simp only at hname hid
        simp [saveIntoSchema, setSchemaAttr, hid, hname, Function.comp]
    · simp [saveIntoSchema, hid, Function.comp]
  · by_cases hw : jsTrim w = ""
    · simp [handleEdit, handleSave, hw]
    · simp [handleEdit, handleSave, hw]

/-- C6 witness: the amended statement at a concrete schema list, edit
values and no-op save. -/
theorem editBack_remainsDirty_witness :
    ((∀ s ∈ [c6Schema], s.id = "s1" → s.name = "A") ∧
     jsTrim "B" ≠ "" ∧ jsTrim "A" ≠ "" ∧ "B" ≠ "A") ∧
    (((handleSave (handleEdit (handleSave (handleEdit ⟨[c6Schema], none, []⟩ "s1" "name" "A")
        "s1" "name" "B") "s1" "name" "B") "s1" "name" "A").updatedSchemas = [c6Schema] ∧
      (handleSave (handleEdit (handleSave (handleEdit ⟨[c6Schema], none, []⟩ "s1" "name" "A")
        "s1" "name" "B") "s1" "name" "B") "s1" "name" "A").editedSchemas = ["s1"]) ∧
     ((handleSave (handleEdit c10St "s1" "name" "Users") "s1" "name" "Users").updatedSchemas =
        c10St.updatedSchemas ∧
      (handleSave (handleEdit c10St "s1" "name" "Users") "s1" "name" "Users").editedSchemas =
        c10St.editedSchemas)) :=
  ⟨⟨by decide, by decide, by decide, by decide⟩,
    editBack_remainsDirty [c6Schema] "s1" "A" "B" c10St "s1" "name" "Users"
      (by decide) (by decide) (by decide) (by decide)⟩

/-- C7: a user-triggered commit sends the entire current working list of
schemas for the project in one request; on success the project is no
longer dirty — after the reload-and-refetch the dirty set is empty (so
the commit's id, like every other, is gone from it) while the working
list equals the list just persisted; on failure the dirty set and the
buffered working list are retained unchanged so the same edits can be
retried (the retry sends the same full list and then clears the dirty
set), and the user is notified via the alert. -/
theorem commitUnit_spec (st : ProjectPageState) (schemaId : String) :
    (handleUpdate st schemaId true).requestSchemas = st.updatedSchemas ∧
    (handleUpdate st schemaId false).requestSchemas = st.updatedSchemas ∧
    (handleUpdate st schemaId true).state.editedSchemas = [] ∧
    schemaId ∉ (handleUpdate st schemaId true).state.editedSchemas ∧
    (handleUpdate st schemaId true).state.updatedSchemas = st.updatedSchemas ∧
    (handleUpdate st schemaId false).state = st ∧
    (handleUpdate st schemaId false).alerted = true ∧
    (handleUpdate st schemaId true).alerted = false ∧
    (handleUpdate (handleUpdate st schemaId false).state schemaId true).requestSchemas =
      st.updatedSchemas ∧
    (handleUpdate (handleUpdate st schemaId false).state schemaId true).state.editedSchemas =
      [] := by
  refine ⟨rfl, rfl, rfl, ?_, rfl, rfl, rfl, rfl, rfl, rfl⟩
  simp [handleUpdate]

/-- C9: for every session created by the login path, `isValid` is true iff
the token is present (truthy) and `now` is before the stored expiry; once
the expiry has passed, `isValid` is false and the session check lands on
the logged-out path with the store cleared — and it keeps doing so on
every subsequent check (never an error, modelled by the check being a
total function into `SessionCheck`). -/
theorem sessionValidity (base : LocalStore) (token : String) (t0 now k : Nat)
    (htok : token ≠ "") (hanon : base.username ≠ some "anonymous") :
    (isValid (establishSession base token t0) now = true ↔
      (truthy (establishSession base token t0).access_token = true ∧
        now < t0 + 30 * 60 * 1000)) ∧
    (t0 + 30 * 60 * 1000 ≤ now →
      isValid (establishSession base token t0) now = false ∧
      (repeatedCheck k (establishSession base token t0) now).introComplete = false ∧
      (repeatedCheck k (establishSession base token t0) now).store.access_token = none) := by
  constructor
  · simp [isValid, establishSession, truthy, htok]
  · intro h2
    have hnl : ¬ (now < t0 + 30 * 60 * 1000) := by omega
    have hval : isValid (establishSession base token t0) now = false := by
      simp [isValid, establishSession, hnl]
    have hb : ((establishSession base token t0).username == some "anonymous") = false := by
      simp [establishSession, beq_eq_false_iff_ne, hanon]
    have hcheck : sessionCheckEffect (establishSession base token t0) now =
        ⟨emptyStore, false, false⟩ := by
      simp [sessionCheckEffect, hb, hval, clearAllKeys]
    have hrep : repeatedCheck k (establishSession base token t0) now =
        ⟨emptyStore, false, false⟩ := by
      cases k with
      | zero => exact hcheck
      | succ m =>
        show repeatedCheck m (sessionCheckEffect (establishSession base token t0) now).store now = _
        rw [hcheck]
        exact repeatedCheck_empty m now
    exact ⟨hval, by simp [hrep], by simp [hrep, emptyStore]⟩

/-- C9 witness: a concrete session established at time 0 checked three
more times right at its expiry instant. -/
theorem sessionValidity_witness :
    ("tok" ≠ "" ∧ emptyStore.username ≠ some "anonymous") ∧
    ((isValid (establishSession emptyStore "tok" 0) 1800000 = true ↔
        (truthy (establishSession emptyStore "tok" 0).access_token = true ∧
          1800000 < 0 + 30 * 60 * 1000)) ∧
     (0 + 30 * 60 * 1000 ≤ 1800000 →
       isValid (establishSession emptyStore "tok" 0) 1800000 = false ∧
       (repeatedCheck 3 (establishSession emptyStore "tok" 0) 1800000).introComplete = false ∧
       (repeatedCheck 3 (establishSession emptyStore "tok" 0) 1800000).store.access_token = none)) :=
  ⟨⟨by decide, by decide⟩,
    sessionValidity emptyStore "tok" 0 1800000 3 (by decide) (by decide)⟩

/-- Turn-1 response of the generation collaborator used in the C5 trace. -/
def c5Resp1 : ProjectSchema := ⟨"Shop", "Anything else?", [], some "c1"⟩

/-- Turn 1: first submit, succeeding with `c5Resp1`. -/
def c5Turn1 : ConvState × Option GenRequest :=
  convSubmit initialConvState "a web shop" (some c5Resp1)

/-- Turn 2: feedback submit whose generation call fails. -/
def c5Turn2 : ConvState × Option GenRequest := convSubmit c5Turn1.1 "add carts" none

/-- Turn 3: the next submit after the failed turn. -/
def c5Turn3 : ConvState × Option GenRequest :=
  convSubmit c5Turn2.1 "add orders" (some c5Resp1)

/-- C5 counterexample: turn 3 is a later turn of the same conversation —
its request still carries the turn-1 `conversationId` — yet it carries no
feedback at all, because the failed turn 2 cleared the in-memory schema
and feedback presence is re-derived from `schema ? ... : null`. -/
theorem convFeedback_cex :
    c5Turn1.2 = some ⟨"a web shop", none, none⟩ ∧
    c5Turn2.2 = some ⟨"add carts", some "c1", some "add carts"⟩ ∧
    c5Turn3.2 = some ⟨"add orders", some "c1", none⟩ := by decide

/-- C5 (amended): the first-turn request carries no feedback and no
conversation id; every submit sends the currently stored conversation id,
which is initialized from turn 1's response and stays unchanged as long
as later responses echo the same id or omit one (a failed call also
leaves it untouched); a later turn's request carries the latest user text
as feedback iff a schema object is currently held — after a failed turn
clears the schema, the next request carries no feedback. -/
theorem convProtocol_turns (s : ConvState) (input c : String)
    (data : ProjectSchema) (r : Option ProjectSchema)
    (hinput : jsTrim input ≠ "") :
    (convSubmit initialConvState input r).2 = some ⟨input, none, none⟩ ∧
    (convSubmit s input r).2 = some (buildGenRequest s input) ∧
    (buildGenRequest s input).conversation_id = s.conversationId ∧
    (s.schema.isSome = true → (buildGenRequest s input).user_feedback = some input) ∧
    (s.schema = none → (buildGenRequest s input).user_feedback = none) ∧
    (s.conversationId = some c →
      data.conversation_id = some c ∨ data.conversation_id = none →
      (applyGenResult s (some data)).conversationId = some c) ∧
    (applyGenResult s none).conversationId = s.conversationId ∧
    (applyGenResult s none).schema = none := by
  refine ⟨?_, ?_, rfl, ?_, ?_, ?_, rfl, rfl⟩
  · simp [convSubmit, hinput, buildGenRequest, initialConvState]
  · simp [convSubmit, hinput]
  · intro h; simp [buildGenRequest, h]
  · intro h; simp [buildGenRequest, h]
  · intro hs hd
    rcases hd with hd | hd
    · by_cases hc : c = ""
      · simp [applyGenResult, hd, hc, truthy, hs]
      · simp [applyGenResult, hd, truthy, hc]
    · simp [applyGenResult, hd, truthy, hs]

/-- Conversation state after a successful turn, used for the C5 witness. -/
def c5S : ConvState := ⟨some c5Resp1, some "c1"⟩

/-- C5 witness: the amended protocol statement at a concrete mid-dialogue
state. -/
theorem convProtocol_turns_witness :
    jsTrim "add orders" ≠ "" ∧
    ((convSubmit initialConvState "add orders" none).2 =
        some ⟨"add orders", none, none⟩ ∧
     (convSubmit c5S "add orders" none).2 = some (buildGenRequest c5S "add orders") ∧
     (buildGenRequest c5S "add orders").conversation_id = c5S.conversationId ∧
     (c5S.schema.isSome = true →
       (buildGenRequest c5S "add orders").user_feedback = some "add orders") ∧
     (c5S.schema = none → (buildGenRequest c5S "add orders").user_feedback = none) ∧
     (c5S.conversationId = some "c1" →
       c5Resp1.conversation_id = some "c1" ∨ c5Resp1.conversation_id = none →
       (applyGenResult c5S (some c5Resp1)).conversationId = some "c1") ∧
     (applyGenResult c5S none).conversationId = c5S.conversationId ∧
     (applyGenResult c5S none).schema = none) :=
  ⟨by decide, convProtocol_turns c5S "add orders" "c1" c5Resp1 none (by decide)⟩

end Dbscst
